import Mathlib

/-!
Shallow embedding of the charging-lifecycle core of the PBL3-Redes repository
(EV charging-station reservations, sessions and payments).

Conventions of the embedding:
* `Decimal` values are rationals (`ℚ`); exact decimal arithmetic.
* timestamps (`datetime.utcnow()` values) are seconds since the epoch (`Int`);
  a `timedelta` is a signed number of seconds.
* fallible Python code is `Except Err`; each use-case method additionally
  returns the ordered list of Ledger-port calls (`LedgerOp`) it performed, so
  that "no write was issued" is a statable property.
* collaborator results (wallet validation, parsing, Ledger reads) enter a
  use case through an explicit environment record, mirroring the ports.
-/

/-- Message constants of `src/shared/constants/texts.py` that the core raises
`ValidationError` with; only the identity of the constant is modelled. -/
inductive TextMsg
  | invalidWalletAddress
  | invalidDatetime
  | invalidDuration
  | reservationTooShort
  | reservationTooLong
  | invalidStartTime
  | sessionNotOwned
  | sessionAlreadyPaid
  | activeSessionPayment
  | invalidStatus
  | invalidAmount
  | reservationNotOwned
  deriving DecidableEq, Repr

/-- The exceptions of `src/domain/exceptions/custom_exceptions.py` that the
embedded use cases can surface, plus the two runtime errors Python itself
raises (`typeError` for a constructor called with a wrong arity, `nameError`
for reading an unbound local variable). -/
inductive Err
  | validationError (msg : TextMsg)
  | userNotFound (wallet : String)
  | stationNotFound (stationId : Nat)
  | sessionNotFound (sessionId : Nat)
  | reservationNotFound (reservationId : Nat)
  | stationInUse (stationId : Nat)
  | stationAlreadyReserved (stationId : Nat) (time : String)
  | sessionNotPaid (sessionId : Nat)
  | sessionNotActive (sessionId : Nat)
  | insufficientPayment (required provided : ℚ)
  | attributeError (detail : String)
  | typeError (detail : String)
  | nameError (varName : String)
  deriving DecidableEq, Repr

/-- Calls a use case makes on the Ledger (blockchain) port, in order. -/
inductive LedgerOp
  | getUser
  | getStation
  | getSession
  | getReservation
  | getUserReservations
  | getBalance
  | isReservedInPeriod
  | isReservedForUser
  | reserveWrite
  | payWrite
  | startWrite
  | endWrite
  | cancelWrite
  deriving DecidableEq, Repr

/-- Whether a Ledger-port call mutates Ledger state. -/
def LedgerOp.isWrite : LedgerOp → Bool
  | .reserveWrite => true
  | .payWrite => true
  | .startWrite => true
  | .endWrite => true
  | .cancelWrite => true
  | _ => false

/-- `SessionStatus` enum of `src/domain/entities/session.py`. -/
inductive SessionStatus
  | pending
  | active
  | completed
  | paid
  | cancelled
  deriving DecidableEq, Repr

/-- `Session` entity of `src/domain/entities/session.py`; times in epoch
seconds, amounts in ℚ. -/
structure Session where
  id : Nat
  user_address : String
  station_id : Nat
  start_time : Option Int := none
  end_time : Option Int := none
  status : SessionStatus := .pending
  payment_amount : Option ℚ := none
  payment_time : Option Int := none
  deriving DecidableEq, Repr

/-- Modelled from the spec: the `is_active` observable of a session, read by
the use cases (`session.is_active`) but not defined on the entity in
`src/domain/entities/session.py`; the spec derives the "active" status from
the underlying enum. -/
def Session.is_active (s : Session) : Bool :=
  s.status = .active

/-- Modelled from the spec: the `is_paid` observable of a session, read by
the use cases (`session.is_paid`) but not defined on the entity in
`src/domain/entities/session.py`; the spec derives the "paid" status from
the underlying enum. -/
def Session.is_paid (s : Session) : Bool :=
  s.status = .paid

/-- Modelled from the spec: the `duration` observable of a session (a
`timedelta`, here in seconds), read by the use cases and the entity tests
(`tests/unit/entities/test_session.py` expects `timedelta(hours=2)`) but not
defined on the entity in `src/domain/entities/session.py`. It is the session
duration when both times are set, per the entity's `get_duration`. -/
def Session.duration (s : Session) : Option Int :=
  match s.start_time, s.end_time with
  | some a, some b => some (b - a)
  | _, _ => none

/-- Python truthiness of the optional `session.duration` timedelta:
`None` and `timedelta(0)` are both falsy. -/
def durationFalsy : Option Int → Bool
  | none => true
  | some d => d = 0

/-- Modelled from the spec: the `duration_hours` observable of a session,
read by the use cases and the entity tests (which expect `Decimal('2.5')`
for 2h30m); duration in hours, present when both times are set. -/
def Session.duration_hours (s : Session) : Option ℚ :=
  s.duration.map (fun d => (d : ℚ) / 3600)

/-- Python `int()` applied to a non-integral numeric value: truncation
toward zero. -/
def pyTrunc (q : ℚ) : ℤ :=
  if q < 0 then ⌈q⌉ else ⌊q⌋

/-- `PaymentUseCase._calculate_payment_amount`
(`src/domain/use_cases/pay.py`, lines 118-137): guard `if not
session.duration` (falsy also at zero duration), then
`Decimal('0.001') * Decimal(str(hours)).quantize(Decimal('1'),
rounding='ROUND_CEILING')`, i.e. the ceiling of the duration in hours. -/
def PaymentUseCase.calculate_payment_amount (s : Session) : Except Err ℚ :=
  if durationFalsy s.duration then
    .error (.validationError .activeSessionPayment)
  else
    match s.duration with
    | some d => .ok ((1 / 1000 : ℚ) * (⌈(d : ℚ) / 3600⌉ : ℚ))
    | none => .error (.validationError .activeSessionPayment)

/-- `ChargeUseCase._calculate_payment_amount`
(`src/domain/use_cases/charge.py`, lines 217-238): same guard, then
`if hours % 1 != 0: hours = int(hours) + 1` (float arithmetic, embedded over
ℚ: the fractionality test is `den ≠ 1` and `int()` truncates toward zero),
then `0.001 * hours`. -/
def ChargeUseCase.calculate_payment_amount (s : Session) : Except Err ℚ :=
  if durationFalsy s.duration then
    .error (.validationError .activeSessionPayment)
  else
    match s.duration with
    | some d =>
      let hours : ℚ := (d : ℚ) / 3600
      let hours' : ℚ := if hours.den ≠ 1 then ((pyTrunc hours + 1 : ℤ) : ℚ) else hours
      .ok ((1 / 1000 : ℚ) * hours')
    | none => .error (.validationError .activeSessionPayment)

/-- A completed session lasting exactly 2.0 hours (7200 s). -/
def sessionTwoHours : Session :=
  { id := 1, user_address := "0xaaaa", station_id := 1,
    start_time := some 0, end_time := some 7200, status := .completed }

/-- A completed session lasting 2.1 hours (7560 s). -/
def sessionTwoPointOneHours : Session :=
  { id := 2, user_address := "0xaaaa", station_id := 1,
    start_time := some 0, end_time := some 7560, status := .completed }

/-- A completed session whose start and end time are both set and equal
(zero duration). -/
def sessionZeroDuration : Session :=
  { id := 3, user_address := "0xaaaa", station_id := 1,
    start_time := some 100, end_time := some 100, status := .completed }

/-- One entry of a station's reservation calendar
(`src/domain/entities/station.py`): holder wallet, start and end time. -/
structure ResEntry where
  user_address : String
  start_time : Int
  end_time : Int
  deriving DecidableEq, Repr

/-- The calendar-date key `strftime("%Y-%m-%d")` of a timestamp: its (UTC)
day index, floor division of the epoch seconds by 86400. Two timestamps get
the same key exactly when they fall on the same calendar date. -/
def dateKey (t : Int) : Int :=
  Int.fdiv t 86400

/-- `Station` entity of `src/domain/entities/station.py`; the reservation
calendar is the dict from date key to entry list (absent key = empty). -/
structure Station where
  id : Nat
  location : String
  power_output : ℚ
  price_per_hour : ℚ
  is_available : Bool := true
  current_session_id : Option Nat := none
  reservations : Int → List ResEntry := fun _ => []
  total_sessions : Nat := 0
  total_revenue : ℚ := 0

/-- `Station.add_reservation` (station.py lines 48-70): appends the entry to
the calendar bucket keyed by the START time's date only. -/
def Station.add_reservation (st : Station) (u : String) (a b : Int) : Station :=
  { st with reservations := fun d =>
      if d = dateKey a then
        st.reservations d ++ [{ user_address := u, start_time := a, end_time := b }]
      else st.reservations d }

/-- `Station.remove_reservation` (station.py lines 72-95): filters the
bucket keyed by the given start time's date. -/
def Station.remove_reservation (st : Station) (u : String) (a b : Int) : Station :=
  { st with reservations := fun d =>
      if d = dateKey a then
        (st.reservations d).filter fun r =>
          !(decide (r.user_address = u ∧ r.start_time = a ∧ r.end_time = b))
      else st.reservations d }

/-- `Station.is_reserved_at` (station.py lines 97-114): consults only the
bucket keyed by the queried time's date. -/
def Station.is_reserved_at (st : Station) (t : Int) : Bool :=
  (st.reservations (dateKey t)).any (fun r => decide (r.start_time ≤ t ∧ t ≤ r.end_time))

/-- `Station.get_reservation_user` (station.py lines 116-134): first holder
in the bucket keyed by the queried time's date whose interval contains it. -/
def Station.get_reservation_user (st : Station) (t : Int) : Option String :=
  ((st.reservations (dateKey t)).find?
    (fun r => decide (r.start_time ≤ t ∧ t ≤ r.end_time))).map ResEntry.user_address

/-- `Station.start_session` (station.py lines 136-144). -/
def Station.start_session (st : Station) (session_id : Nat) : Station :=
  { st with is_available := false, current_session_id := some session_id }

/-- `Station.end_session` (station.py lines 146-152). -/
def Station.end_session (st : Station) : Station :=
  { st with
      is_available := true
      current_session_id := none
      total_sessions := st.total_sessions + 1 }

/-- `Station.add_revenue` (station.py lines 154-161). -/
def Station.add_revenue (st : Station) (amount : ℚ) : Station :=
  { st with total_revenue := st.total_revenue + amount }

/-- The availability invariant of spec §3:
`is_available == (current_session_id is None)`. -/
def Station.availabilityInv (st : Station) : Prop :=
  st.is_available = true ↔ st.current_session_id = none

instance (st : Station) : Decidable st.availabilityInv := by
  unfold Station.availabilityInv
  infer_instance

/-- An available station with an empty reservation calendar. -/
def stationOne : Station :=
  { id := 1, location := "Loc A", power_output := 74 / 10,
    price_per_hour := 1 / 1000 }

/-- `stationOne` after adding a reservation that spans midnight:
day 0 at 22:00 (79200) through day 1 at 02:00 (93600). -/
def stationMidnight : Station :=
  stationOne.add_reservation "0xw1" 79200 93600

/-- `User` entity of `src/domain/entities/user.py`. -/
structure User where
  id : Nat
  wallet_address : String
  email : String
  name : String
  created_at : Int
  last_login : Option Int := none
  active_sessions : List Nat := []
  total_charges : ℚ := 0
  total_sessions : Nat := 0
  active_reservations : List Nat := []
  deriving DecidableEq, Repr

/-- Modelled from the spec: the `Reservation` record returned by the Ledger
port and consumed by `ReserveUseCase`; no reservation entity exists under
`src/domain/entities/`. Attributes per spec §3: numeric id, owning wallet,
station id, start time, end time, cancelled flag. -/
structure Reservation where
  id : Nat
  user_address : String
  station_id : Nat
  start_time : Int
  end_time : Int
  is_cancelled : Bool := false
  deriving DecidableEq, Repr

/-- Modelled from the spec: the `duration_hours` observable of a reservation
(read by the use cases as `reservation.duration_hours`); the spec defines
duration as `end_time - start_time`, in hours. -/
def Reservation.duration_hours (r : Reservation) : ℚ :=
  ((r.end_time - r.start_time : ℤ) : ℚ) / 3600

/-- The reservation view assembled by `ReserveUseCase.reserve_station`
(reserve.py lines 116-125): response-formatting helpers are out of scope,
so the view keeps the raw fields. -/
structure ReservationView where
  reservation_id : Nat
  user_address : String
  station_id : Nat
  start_time : Int
  end_time : Int
  duration_hours : ℚ
  status : String
  deriving DecidableEq, Repr

/-- Collaborator results consumed by one `ReserveUseCase.reserve_station`
call: the HTTP-port validation/parsing outcomes and the Ledger-port reads
and write results, in the order the source consults them. -/
structure ReserveEnv where
  walletValid : Bool
  parsedStart : Except String Int
  parsedDuration : Except String ℚ
  now : Int
  user : Option User
  station : Option Station
  reservedInPeriod : Bool
  newReservationId : Nat
  storedReservation : Reservation

/-- `ReserveUseCase.reserve_station` (src/domain/use_cases/reserve.py lines
34-125). Returns the result together with the ordered Ledger-port calls.
At the overlap branch (line 102) the source executes
`raise StationAlreadyReservedError(station_id)`, but
`StationAlreadyReservedError.__init__` (custom_exceptions.py lines 35-41)
requires two positional arguments `(station_id, time)`; constructing the
exception therefore raises `TypeError`, which is what propagates. -/
def ReserveUseCase.reserve_station (user_address : String) (station_id : Nat)
    (env : ReserveEnv) : Except Err ReservationView × List LedgerOp :=
  if !env.walletValid then
    (.error (.validationError .invalidWalletAddress), [])
  else
    match env.parsedStart with
    | .error _ => (.error (.validationError .invalidDatetime), [])
    | .ok start_time =>
      match env.parsedDuration with
      | .error _ => (.error (.validationError .invalidDuration), [])
      | .ok duration_hours =>
        if duration_hours < 1 then
          (.error (.validationError .reservationTooShort), [])
        else if duration_hours > 24 then
          (.error (.validationError .reservationTooLong), [])
        else if start_time < env.now then
          (.error (.validationError .invalidStartTime), [])
        else
          match env.user with
          | none => (.error (.userNotFound user_address), [.getUser])
          | some _user =>
            match env.station with
            | none => (.error (.stationNotFound station_id), [.getUser, .getStation])
            | some station =>
              if !station.is_available then
                (.error (.stationInUse station_id), [.getUser, .getStation])
              else if env.reservedInPeriod then
                (.error (.typeError
                    "StationAlreadyReservedError.__init__ missing required positional argument: time"),
                  [.getUser, .getStation, .isReservedInPeriod])
              else
                (.ok { reservation_id := env.newReservationId
                       user_address := user_address
                       station_id := station_id
                       start_time := env.storedReservation.start_time
                       end_time := env.storedReservation.end_time
                       duration_hours := env.storedReservation.duration_hours
                       status := "active" },
                  [.getUser, .getStation, .isReservedInPeriod, .reserveWrite,
                    .getReservation])

/-- A registered user for concrete scenarios. -/
def userW : User :=
  { id := 1, wallet_address := "0xw", email := "w@x", name := "W", created_at := 0 }

/-- The reservation row the Ledger stores for the concrete scenarios:
station 1, `[T+1h, T+2h]` with `T = 0`. -/
def resStored : Reservation :=
  { id := 7, user_address := "0xw", station_id := 1,
    start_time := 3600, end_time := 7200 }

/-- Baseline collaborator results for `reserve_station` scenarios: valid
wallet, start `T+1h`, duration 1 h, `now = T = 0`, user and available
station found, no overlapping reservation. -/
def reserveEnvBase : ReserveEnv :=
  { walletValid := true, parsedStart := .ok 3600, parsedDuration := .ok 1,
    now := 0, user := some userW, station := some stationOne,
    reservedInPeriod := false, newReservationId := 7,
    storedReservation := resStored }

/-- `reserve_station` scenario: duration 0.99 h. -/
def reserveEnvTooShort : ReserveEnv :=
  { reserveEnvBase with parsedDuration := .ok (99 / 100) }

/-- `reserve_station` scenario: duration 24.01 h. -/
def reserveEnvTooLong : ReserveEnv :=
  { reserveEnvBase with parsedDuration := .ok (2401 / 100) }

/-- `reserve_station` scenario: start one second before `now`. -/
def reserveEnvPast : ReserveEnv :=
  { reserveEnvBase with parsedStart := .ok (-1) }

/-- `reserve_station` scenario: duration exactly 24 h. -/
def reserveEnvDur24 : ReserveEnv :=
  { reserveEnvBase with parsedDuration := .ok 24 }

/-- `reserve_station` scenario: wallet W2 requests `[T+1h30m, T+2h30m]`
while the Ledger reports an overlapping non-cancelled reservation
(W1 holds `[T+1h, T+2h]`), so `is_station_reserved_in_period` is true. -/
def reserveEnvOverlap : ReserveEnv :=
  { reserveEnvBase with parsedStart := .ok 5400, reservedInPeriod := true }

/-- Collaborator results consumed by one `PaymentUseCase.process_payment`
call, in the order the source consults them. -/
structure PayEnv where
  walletValid : Bool
  parsedAmount : Except String ℚ
  user : Option User
  session : Option Session
  balance : ℚ
  paidSession : Session

/-- `PaymentUseCase.process_payment` (src/domain/use_cases/pay.py lines
31-116): wallet check, amount parse, user/session fetch, ownership check,
active check, already-paid check, required-amount computation, amount
sufficiency, balance sufficiency, then the `pay_session` write and a
re-read of the session. -/
def PaymentUseCase.process_payment (user_address : String) (session_id : Nat)
    (env : PayEnv) : Except Err Session × List LedgerOp :=
  if !env.walletValid then
    (.error (.validationError .invalidWalletAddress), [])
  else
    match env.parsedAmount with
    | .error _ => (.error (.validationError .invalidAmount), [])
    | .ok amount =>
      match env.user with
      | none => (.error (.userNotFound user_address), [.getUser])
      | some _user =>
        match env.session with
        | none => (.error (.sessionNotFound session_id), [.getUser, .getSession])
        | some session =>
          if session.user_address ≠ user_address then
            (.error (.validationError .sessionNotOwned), [.getUser, .getSession])
          else if session.is_active then
            (.error (.sessionNotPaid session_id), [.getUser, .getSession])
          else if session.is_paid then
            (.error (.validationError .sessionAlreadyPaid), [.getUser, .getSession])
          else
            match PaymentUseCase.calculate_payment_amount session with
            | .error e => (.error e, [.getUser, .getSession])
            | .ok required_amount =>
              if amount < required_amount then
                (.error (.insufficientPayment required_amount amount),
                  [.getUser, .getSession])
              else if env.balance < amount then
                (.error (.insufficientPayment amount env.balance),
                  [.getUser, .getSession, .getBalance])
              else
                (.ok env.paidSession,
                  [.getUser, .getSession, .getBalance, .payWrite, .getSession])

/-- A session in status PAID (2.0 h, paid 0.002 at time 7300). -/
def sessionPaid : Session :=
  { id := 4, user_address := "0xaaaa", station_id := 1,
    start_time := some 0, end_time := some 7200, status := .paid,
    payment_amount := some (2 / 1000), payment_time := some 7300 }

/-- `process_payment` scenario: amount 0.0005 against the 2.0-hour session
requiring 0.002; ample balance. -/
def payEnvInsufficient : PayEnv :=
  { walletValid := true, parsedAmount := .ok (5 / 10000),
    user := some userW, session := some sessionTwoHours,
    balance := 1, paidSession := sessionTwoHours }

/-- `process_payment` scenario: a second payment attempt on the already
paid session. -/
def payEnvPaid : PayEnv :=
  { walletValid := true, parsedAmount := .ok (2 / 1000),
    user := some userW, session := some sessionPaid,
    balance := 1, paidSession := sessionPaid }

/-- The session view assembled by `ChargeUseCase.get_session_details`
(charge.py lines 204-215); response-formatting helpers are out of scope,
so the view keeps the raw fields. -/
structure SessionDetailsView where
  session_id : Nat
  user_address : String
  station_id : Nat
  start_time : Int
  end_time : Option Int
  duration_hours : Option ℚ
  required_payment : Option ℚ
  status : String
  deriving DecidableEq, Repr

/-- Collaborator results consumed by one `ChargeUseCase.get_session_details`
call. -/
structure DetailsEnv where
  walletValid : Bool
  user : Option User
  session : Option Session

/-- `ChargeUseCase.get_session_details` (src/domain/use_cases/charge.py
lines 162-215): wallet check, user/session fetch, ownership check, then the
required amount (computed only when neither active nor paid, and able to
raise `ValidationError` through `_calculate_payment_amount`), then the view
whose `status` string is derived as on line 213: `"active" if
session.is_active else "ended" if session.end_time else "paid" if
session.is_paid else "unknown"`. Line 209 calls
`session.start_time.isoformat()` unconditionally, an `AttributeError` when
`start_time` is `None`. -/
def ChargeUseCase.get_session_details (user_address : String) (session_id : Nat)
    (env : DetailsEnv) : Except Err SessionDetailsView × List LedgerOp :=
  if !env.walletValid then
    (.error (.validationError .invalidWalletAddress), [])
  else
    match env.user with
    | none => (.error (.userNotFound user_address), [.getUser])
    | some _user =>
      match env.session with
      | none => (.error (.sessionNotFound session_id), [.getUser, .getSession])
      | some session =>
        if session.user_address ≠ user_address then
          (.error (.validationError .sessionNotOwned), [.getUser, .getSession])
        else
          let ropt : Except Err (Option ℚ) :=
            if !session.is_active && !session.is_paid then
              (ChargeUseCase.calculate_payment_amount session).map some
            else .ok none
          match ropt with
          | .error e => (.error e, [.getUser, .getSession])
          | .ok required =>
            match session.start_time with
            | none =>
              (.error (.attributeError "NoneType has no attribute isoformat"),
                [.getUser, .getSession])
            | some st =>
              (.ok { session_id := session_id
                     user_address := user_address
                     station_id := session.station_id
                     start_time := st
                     end_time := session.end_time
                     duration_hours := session.duration_hours
                     required_payment := required
                     status :=
                       if session.is_active then "active"
                       else if session.end_time.isSome then "ended"
                       else if session.is_paid then "paid"
                       else "unknown" },
                [.getUser, .getSession])

/-- `get_session_details` scenario: querying the paid session. -/
def detailsEnvPaid : DetailsEnv :=
  { walletValid := true, user := some userW, session := some sessionPaid }

/-- Collaborator results consumed by one `ChargeUseCase.get_user_sessions`
call; `lookup` is the Ledger's `get_session`, `none` meaning
`SessionNotFoundError`. -/
structure UserSessionsEnv where
  walletValid : Bool
  user : Option User
  lookup : Nat → Option Session

/-- The `for session_id in ...` loop of `ChargeUseCase.get_user_sessions`
(charge.py lines 270-277): fetch each id, silently `continue` on
`SessionNotFoundError`, keep sessions owned by the user. -/
def ChargeUseCase.sessionsLoop (lookup : Nat → Option Session) (w : String) :
    List Nat → List Session
  | [] => []
  | i :: rest =>
    match lookup i with
    | none => ChargeUseCase.sessionsLoop lookup w rest
    | some s =>
      if s.user_address = w then s :: ChargeUseCase.sessionsLoop lookup w rest
      else ChargeUseCase.sessionsLoop lookup w rest

/-- `ChargeUseCase.get_user_sessions` (src/domain/use_cases/charge.py lines
240-279): wallet check, user fetch, then the loop over the user's active
session ids when `active_only`, else over ids `1..user.total_sessions`. -/
def ChargeUseCase.get_user_sessions (user_address : String) (active_only : Bool)
    (env : UserSessionsEnv) : Except Err (List Session) :=
  if !env.walletValid then
    .error (.validationError .invalidWalletAddress)
  else
    match env.user with
    | none => .error (.userNotFound user_address)
    | some user =>
      .ok (ChargeUseCase.sessionsLoop env.lookup user_address
        (if active_only then user.active_sessions
         else List.range' 1 user.total_sessions))

/-- `get_user_sessions` scenario: the user's counter says three sessions but
only id 1 still resolves on the Ledger. -/
def userSessionsEnvSparse : UserSessionsEnv :=
  { walletValid := true
    user := some { userW with wallet_address := "0xaaaa", total_sessions := 3 }
    lookup := fun i => if i = 1 then some sessionTwoHours else none }

/-- Python truthiness of the optional `status` argument: `None` and the
empty string are falsy. -/
def pyStatusTruthy : Option String → Bool
  | none => false
  | some st => st ≠ ""

/-- The filter `elif` chain of `ReserveUseCase.get_user_reservations`
(reserve.py lines 287-295), applied to one reservation. -/
def ReserveUseCase.resFilterKeep (status : String) (now : Int)
    (r : Reservation) : Bool :=
  if r.is_cancelled = true ∧ status = "cancelled" then true
  else if now > r.end_time ∧ status = "expired" then true
  else if now ≥ r.start_time ∧ status = "active" then true
  else if now < r.start_time ∧ status = "pending" then true
  else false

/-- One item of the listing comprehension (reserve.py lines 300-312), with
its already-computed status string. -/
def ReserveUseCase.resItem (w : String) (r : Reservation) (status : String) :
    ReservationView :=
  { reservation_id := r.id, user_address := w, station_id := r.station_id,
    start_time := r.start_time, end_time := r.end_time,
    duration_hours := r.duration_hours, status := status }

/-- The status conditional of the listing comprehension (reserve.py lines
307-310): `"cancelled" if reservation.is_cancelled else "expired" if
current_time > ... else "active" if ... else "pending"`. The conditional is
lazy: for a cancelled reservation the Python local `current_time` is never
read; for a non-cancelled one, reading it while unassigned raises
`NameError`. -/
def ReserveUseCase.resItemStatusVar (currentTimeVar : Option Int)
    (r : Reservation) : Except Err String :=
  if r.is_cancelled then .ok "cancelled"
  else
    match currentTimeVar with
    | none => .error (.nameError "current_time")
    | some t =>
      .ok (if t > r.end_time then "expired"
           else if t ≥ r.start_time then "active"
           else "pending")

/-- The listing comprehension of `get_user_reservations` (reserve.py lines
299-314), item by item in list order; an item whose status conditional hits
the unassigned `current_time` aborts the whole comprehension. -/
def ReserveUseCase.buildResItems (currentTimeVar : Option Int) (w : String) :
    List Reservation → Except Err (List ReservationView)
  | [] => .ok []
  | r :: rest =>
    match ReserveUseCase.resItemStatusVar currentTimeVar r with
    | .error e => .error e
    | .ok st =>
      (ReserveUseCase.buildResItems currentTimeVar w rest).map
        (fun tail => ReserveUseCase.resItem w r st :: tail)

/-- Collaborator results consumed by one
`ReserveUseCase.get_user_reservations` call. -/
structure UserResEnv where
  walletValid : Bool
  user : Option User
  reservations : List Reservation
  now : Int

/-- `ReserveUseCase.get_user_reservations` (src/domain/use_cases/reserve.py
lines 247-314): wallet check, status-value check (`if status and status not
in [...]`), user fetch, reservation fetch, the optional filter branch —
which is the only place the local `current_time` is assigned (line 285) —
and the final comprehension, whose status conditional reads `current_time`
for every non-cancelled item. -/
def ReserveUseCase.get_user_reservations (user_address : String)
    (status : Option String) (env : UserResEnv) :
    Except Err (List ReservationView) × List LedgerOp :=
  if !env.walletValid then
    (.error (.validationError .invalidWalletAddress), [])
  else if pyStatusTruthy status
      ∧ status.getD "" ∉ (["active", "pending", "expired", "cancelled"] : List String) then
    (.error (.validationError .invalidStatus), [])
  else
    match env.user with
    | none => (.error (.userNotFound user_address), [.getUser])
    | some _user =>
      let pass : Option Int × List Reservation :=
        if pyStatusTruthy status then
          (some env.now,
            env.reservations.filter
              (ReserveUseCase.resFilterKeep (status.getD "") env.now))
        else (none, env.reservations)
      (ReserveUseCase.buildResItems pass.1 user_address pass.2,
        [.getUser, .getUserReservations])

/-- `get_user_reservations` scenario: one stored reservation, no status
filter. -/
def userResEnvOne : UserResEnv :=
  { walletValid := true, user := some userW,
    reservations := [resStored], now := 0 }

/-- A cancelled reservation of wallet W. -/
def resCancelled : Reservation :=
  { id := 8, user_address := "0xw", station_id := 1,
    start_time := 3600, end_time := 7200, is_cancelled := true }

/-- `get_user_reservations` scenario: the user's only reservation is
cancelled. -/
def userResEnvCancelled : UserResEnv :=
  { walletValid := true, user := some userW,
    reservations := [resCancelled], now := 0 }

/-- An active session (started, not ended). -/
def sessionActive : Session :=
  { id := 5, user_address := "0xaaaa", station_id := 1,
    start_time := some 0, status := .active }

/-- `get_session_details` scenario: querying the active session. -/
def detailsEnvActive : DetailsEnv :=
  { walletValid := true, user := some userW, session := some sessionActive }

/-- `get_session_details` scenario: querying the completed 2.0-hour
session. -/
def detailsEnvCompleted : DetailsEnv :=
  { walletValid := true, user := some userW, session := some sessionTwoHours }

lemma ceil_eq_floor_add_one_of_den_ne_one {q : ℚ} (h : q.den ≠ 1) :
    ⌈q⌉ = ⌊q⌋ + 1 := by
  rw [Int.ceil_eq_iff]
  constructor
  · push_cast
    rw [add_sub_cancel_right]
    rcases lt_or_eq_of_le (Int.floor_le q) with hlt | heq
    · exact hlt
    · exact absurd (heq ▸ Rat.den_intCast ⌊q⌋) h
  · push_cast
    exact (Int.lt_floor_add_one q).le

lemma charge_hours_eq_ceil {q : ℚ} (hq : 0 < q) :
    (if q.den ≠ 1 then ((pyTrunc q + 1 : ℤ) : ℚ) else q) = (⌈q⌉ : ℚ) := by
  by_cases h : q.den = 1
  · have hnum : (q.num : ℚ) = q := Rat.coe_int_num_of_den_eq_one h
    simp only [h, ne_eq, not_true_eq_false, if_false]
    rw [← hnum, Int.ceil_intCast]
  · simp only [ne_eq, h, not_false_eq_true, if_true, pyTrunc,
      not_lt.mpr hq.le, if_false]
    rw [ceil_eq_floor_add_one_of_den_ne_one h]

/-- C1 counterexample: a session with start and end time both set but equal
(zero duration) is billed by neither `_calculate_payment_amount`
implementation; both raise `ValidationError` instead of returning
`0.001 × 0` as the claim's formula demands. -/
theorem calculate_payment_amount_zero_duration_cex :
    sessionZeroDuration.start_time.isSome = true
    ∧ sessionZeroDuration.end_time.isSome = true
    ∧ PaymentUseCase.calculate_payment_amount sessionZeroDuration
        = .error (.validationError .activeSessionPayment)
    ∧ ChargeUseCase.calculate_payment_amount sessionZeroDuration
        = .error (.validationError .activeSessionPayment)
    ∧ PaymentUseCase.calculate_payment_amount sessionZeroDuration
        ≠ .ok ((1 / 1000 : ℚ) * (⌈((0 : ℤ) : ℚ) / 3600⌉ : ℚ)) := by
  have h1 : PaymentUseCase.calculate_payment_amount sessionZeroDuration
      = .error (.validationError .activeSessionPayment) := rfl
  refine ⟨rfl, rfl, h1, rfl, ?_⟩
  rw [h1]
  exact fun h => Except.noConfusion h

/-- C1 (amended): for every session whose start and end time are both set
with a positive duration, both `_calculate_payment_amount` implementations
(`pay.py` and `charge.py`) return the base rate 0.001 multiplied by the
duration in hours rounded up to the next whole hour; in particular
2.0 hours yields 0.002 and 2.1 hours yields 0.003. -/
theorem calculate_payment_amount_eq_ceiling (s : Session) (a b : Int)
    (hs : s.start_time = some a) (he : s.end_time = some b) (hab : a < b) :
    PaymentUseCase.calculate_payment_amount s
        = .ok ((1 / 1000 : ℚ) * (⌈((b - a : ℤ) : ℚ) / 3600⌉ : ℚ))
    ∧ ChargeUseCase.calculate_payment_amount s
        = .ok ((1 / 1000 : ℚ) * (⌈((b - a : ℤ) : ℚ) / 3600⌉ : ℚ)) := by
  have hdur : s.duration = some (b - a) := by
    simp [Session.duration, hs, he]
  have hne : b - a ≠ 0 := by omega
  constructor
  · simp [PaymentUseCase.calculate_payment_amount, hdur, durationFalsy, hne]
  · simp [ChargeUseCase.calculate_payment_amount, hdur, durationFalsy, hne]
    have hq' : (0 : ℚ) < ((b : ℚ) - (a : ℚ)) / 3600 := by
      have hba : (0 : ℚ) < ((b - a : ℤ) : ℚ) := by exact_mod_cast sub_pos.mpr hab
      push_cast at hba
      exact div_pos hba (by norm_num)
    have hc := charge_hours_eq_ceil hq'
    by_cases hden : (((b : ℚ) - (a : ℚ)) / 3600).den = 1
    · rw [if_pos hden]
      rw [if_neg (by simp [hden])] at hc
      exact congrArg (fun x => 1000⁻¹ * x) hc
    · rw [if_neg hden]
      rw [if_pos hden] at hc
      push_cast at hc
      exact congrArg (fun x => 1000⁻¹ * x) hc

/-- C1 witness: the theorem applied to the 2.0-hour and 2.1-hour sessions,
yielding amounts 0.002 and 0.003. -/
theorem calculate_payment_amount_eq_ceiling_witness :
    PaymentUseCase.calculate_payment_amount sessionTwoHours = .ok (2 / 1000)
    ∧ ChargeUseCase.calculate_payment_amount sessionTwoHours = .ok (2 / 1000)
    ∧ PaymentUseCase.calculate_payment_amount sessionTwoPointOneHours = .ok (3 / 1000)
    ∧ ChargeUseCase.calculate_payment_amount sessionTwoPointOneHours = .ok (3 / 1000) := by
  have hA := calculate_payment_amount_eq_ceiling sessionTwoHours 0 7200 rfl rfl (by norm_num)
  have hB := calculate_payment_amount_eq_ceiling sessionTwoPointOneHours 0 7560 rfl rfl
    (by norm_num)
  have cA : (⌈((7200 - 0 : ℤ) : ℚ) / 3600⌉ : ℤ) = 2 := by
    norm_num
  have cB : (⌈(21 / 10 : ℚ)⌉ : ℤ) = 3 := by
    rw [Int.ceil_eq_iff]
    norm_num
  refine ⟨?_, ?_, ?_, ?_⟩
  · rw [hA.1]; norm_num [cA]
  · rw [hA.2]; norm_num [cA]
  · rw [hB.1, show ((7560 - 0 : ℤ) : ℚ) / 3600 = 21 / 10 by norm_num, cB]
    norm_num
  · rw [hB.2, show ((7560 - 0 : ℤ) : ℚ) / 3600 = 21 / 10 by norm_num, cB]
    norm_num

/-- C7: any station state satisfying the availability invariant
`is_available == (current_session_id is None)` still satisfies it after
`Station.start_session` (with any session id) and after
`Station.end_session`. -/
theorem station_availability_inv_preserved (st : Station) (sid : Nat)
    (_h : st.availabilityInv) :
    (st.start_session sid).availabilityInv ∧ st.end_session.availabilityInv := by
  constructor
  · simp [Station.availabilityInv, Station.start_session]
  · simp [Station.availabilityInv, Station.end_session]

/-- C7 witness: the invariant-preservation theorem applied to a concrete
available station. -/
theorem station_availability_inv_preserved_witness :
    (stationOne.start_session 5).availabilityInv
    ∧ stationOne.end_session.availabilityInv :=
  station_availability_inv_preserved stationOne 5 (by decide)

/-- C10: the station stores a reservation spanning midnight under the start
date's bucket only, so a time inside the reserved interval but on the next
calendar date is reported unreserved (`is_reserved_at = false`,
`get_reservation_user = none`), while a same-date time inside the interval
is reported reserved. -/
theorem midnight_reservation_invisible :
    ({ user_address := "0xw1", start_time := 79200, end_time := 93600 } : ResEntry)
        ∈ stationMidnight.reservations (dateKey 79200)
    ∧ dateKey 90000 ≠ dateKey 79200
    ∧ (79200 : Int) ≤ 90000 ∧ (90000 : Int) ≤ 93600
    ∧ stationMidnight.is_reserved_at 90000 = false
    ∧ stationMidnight.get_reservation_user 90000 = none
    ∧ stationMidnight.is_reserved_at 80000 = true
    ∧ stationMidnight.get_reservation_user 80000 = some "0xw1" := by
  refine ⟨?_, by decide, by decide, by decide, rfl, rfl, rfl, rfl⟩
  simp [stationMidnight, Station.add_reservation, stationOne]

/-- C4: `reserve_station` validates in order wallet, start-time parse,
duration parse, duration ≥ 1, duration ≤ 24, start not in the past; each
rejection is a `ValidationError` returned with no Ledger call performed,
and once validation passes the first Ledger call (`get_user`) happens. -/
theorem reserve_station_validation_order (w : String) (sid : Nat) (env : ReserveEnv) :
    (env.walletValid = false →
      ReserveUseCase.reserve_station w sid env
        = (.error (.validationError .invalidWalletAddress), []))
    ∧ (∀ e, env.walletValid = true → env.parsedStart = .error e →
      ReserveUseCase.reserve_station w sid env
        = (.error (.validationError .invalidDatetime), []))
    ∧ (∀ t e, env.walletValid = true → env.parsedStart = .ok t →
      env.parsedDuration = .error e →
      ReserveUseCase.reserve_station w sid env
        = (.error (.validationError .invalidDuration), []))
    ∧ (∀ t d, env.walletValid = true → env.parsedStart = .ok t →
      env.parsedDuration = .ok d → d < 1 →
      ReserveUseCase.reserve_station w sid env
        = (.error (.validationError .reservationTooShort), []))
    ∧ (∀ t d, env.walletValid = true → env.parsedStart = .ok t →
      env.parsedDuration = .ok d → 1 ≤ d → 24 < d →
      ReserveUseCase.reserve_station w sid env
        = (.error (.validationError .reservationTooLong), []))
    ∧ (∀ t d, env.walletValid = true → env.parsedStart = .ok t →
      env.parsedDuration = .ok d → 1 ≤ d → d ≤ 24 → t < env.now →
      ReserveUseCase.reserve_station w sid env
        = (.error (.validationError .invalidStartTime), []))
    ∧ (∀ t d, env.walletValid = true → env.parsedStart = .ok t →
      env.parsedDuration = .ok d → 1 ≤ d → d ≤ 24 → env.now ≤ t →
      (ReserveUseCase.reserve_station w sid env).2.head? = some .getUser) := by
  refine ⟨?_, ?_, ?_, ?_, ?_, ?_, ?_⟩
  · intro h
    simp [ReserveUseCase.reserve_station, h]
  · intro e h1 h2
    simp [ReserveUseCase.reserve_station, h1, h2]
  · intro t e h1 h2 h3
    simp [ReserveUseCase.reserve_station, h1, h2, h3]
  · intro t d h1 h2 h3 h4
    simp [ReserveUseCase.reserve_station, h1, h2, h3, h4]
  · intro t d h1 h2 h3 h4 h5
    simp [ReserveUseCase.reserve_station, h1, h2, h3, not_lt.mpr h4, h5]
  · intro t d h1 h2 h3 h4 h5 h6
    simp [ReserveUseCase.reserve_station, h1, h2, h3, not_lt.mpr h4,
      not_lt.mpr h5, h6]
  · intro t d h1 h2 h3 h4 h5 h6
    cases hu : env.user with
    | none =>
      simp [ReserveUseCase.reserve_station, h1, h2, h3, not_lt.mpr h4,
        not_lt.mpr h5, not_lt.mpr h6, hu]
    | some u =>
      cases hst : env.station with
      | none =>
        simp [ReserveUseCase.reserve_station, h1, h2, h3, not_lt.mpr h4,
          not_lt.mpr h5, not_lt.mpr h6, hu, hst]
      | some st =>
        by_cases hav : st.is_available
        · by_cases hres : env.reservedInPeriod
          · simp [ReserveUseCase.reserve_station, h1, h2, h3, not_lt.mpr h4,
              not_lt.mpr h5, not_lt.mpr h6, hu, hst, hav, hres]
          · simp [ReserveUseCase.reserve_station, h1, h2, h3, not_lt.mpr h4,
              not_lt.mpr h5, not_lt.mpr h6, hu, hst, hav, hres]
        · simp [ReserveUseCase.reserve_station, h1, h2, h3, not_lt.mpr h4,
            not_lt.mpr h5, not_lt.mpr h6, hu, hst, hav]

/-- C4 witness: duration 0.99 is rejected as too short, 24.01 as too long,
start `now - 1 s` as in the past, all with no Ledger call; durations 1 and
24 pass validation and reach the first Ledger read. -/
theorem reserve_station_validation_order_witness :
    ReserveUseCase.reserve_station "0xw" 1 reserveEnvTooShort
        = (.error (.validationError .reservationTooShort), [])
    ∧ ReserveUseCase.reserve_station "0xw" 1 reserveEnvTooLong
        = (.error (.validationError .reservationTooLong), [])
    ∧ ReserveUseCase.reserve_station "0xw" 1 reserveEnvPast
        = (.error (.validationError .invalidStartTime), [])
    ∧ (ReserveUseCase.reserve_station "0xw" 1 reserveEnvBase).2.head?
        = some .getUser
    ∧ (ReserveUseCase.reserve_station "0xw" 1 reserveEnvDur24).2.head?
        = some .getUser := by
  refine ⟨?_, ?_, ?_, ?_, ?_⟩
  · exact (reserve_station_validation_order "0xw" 1 reserveEnvTooShort).2.2.2.1
      3600 (99 / 100) rfl rfl rfl (by norm_num)
  · exact (reserve_station_validation_order "0xw" 1 reserveEnvTooLong).2.2.2.2.1
      3600 (2401 / 100) rfl rfl rfl (by norm_num) (by norm_num)
  · exact (reserve_station_validation_order "0xw" 1 reserveEnvPast).2.2.2.2.2.1
      (-1) 1 rfl rfl rfl (by norm_num) (by norm_num) (by decide)
  · exact (reserve_station_validation_order "0xw" 1 reserveEnvBase).2.2.2.2.2.2
      3600 1 rfl rfl rfl (by norm_num) (by norm_num) (by decide)
  · exact (reserve_station_validation_order "0xw" 1 reserveEnvDur24).2.2.2.2.2.2
      3600 24 rfl rfl rfl (by norm_num) (by norm_num) (by decide)

/-- C2: in the overlap scenario (W2 requests a period the Ledger reports as
already reserved), `reserve_station` reaches the overlap branch but the
`raise StationAlreadyReservedError(station_id)` at reserve.py line 102
under-applies the two-argument `StationAlreadyReservedError.__init__`, so a
`TypeError` propagates instead of `StationAlreadyReservedError`; no
reservation write is issued. -/
theorem reserve_station_overlap_typeerror :
    ReserveUseCase.reserve_station "0xw2" 1 reserveEnvOverlap
        = (.error (.typeError
            "StationAlreadyReservedError.__init__ missing required positional argument: time"),
          [.getUser, .getStation, .isReservedInPeriod])
    ∧ LedgerOp.reserveWrite ∉ (ReserveUseCase.reserve_station "0xw2" 1 reserveEnvOverlap).2 := by
  have h : ReserveUseCase.reserve_station "0xw2" 1 reserveEnvOverlap
      = (.error (.typeError
          "StationAlreadyReservedError.__init__ missing required positional argument: time"),
        [.getUser, .getStation, .isReservedInPeriod]) := by
    simp [ReserveUseCase.reserve_station, reserveEnvOverlap, reserveEnvBase,
      stationOne, userW]
  refine ⟨h, ?_⟩
  rw [h]
  decide

/-- C5: on a completed session owned by the caller, offering an amount
strictly below the required amount makes `process_payment` return
`InsufficientPaymentError(required, provided)` after only the two Ledger
reads; the `pay_session` write is never issued. -/
theorem process_payment_insufficient (w : String) (sid : Nat) (env : PayEnv)
    (s : Session) (u : User) (amount required : ℚ)
    (hw : env.walletValid = true) (ha : env.parsedAmount = .ok amount)
    (hu : env.user = some u) (hs : env.session = some s)
    (hown : s.user_address = w) (hst : s.status = .completed)
    (hreq : PaymentUseCase.calculate_payment_amount s = .ok required)
    (hlt : amount < required) :
    PaymentUseCase.process_payment w sid env
        = (.error (.insufficientPayment required amount), [.getUser, .getSession])
    ∧ LedgerOp.payWrite ∉ (PaymentUseCase.process_payment w sid env).2 := by
  have h : PaymentUseCase.process_payment w sid env
      = (.error (.insufficientPayment required amount), [.getUser, .getSession]) := by
    simp [PaymentUseCase.process_payment, hw, ha, hu, hs, hown,
      Session.is_active, Session.is_paid, hst, hreq, hlt]
  refine ⟨h, ?_⟩
  rw [h]
  simp

/-- C5 witness: amount 0.0005 against the 2.0-hour session requiring 0.002
yields `InsufficientPaymentError(0.002, 0.0005)` with no pay write. -/
theorem process_payment_insufficient_witness :
    PaymentUseCase.process_payment "0xaaaa" 1 payEnvInsufficient
        = (.error (.insufficientPayment (2 / 1000) (5 / 10000)),
          [.getUser, .getSession]) := by
  have hreq : PaymentUseCase.calculate_payment_amount sessionTwoHours
      = .ok (2 / 1000) := by
    simp [PaymentUseCase.calculate_payment_amount, sessionTwoHours,
      Session.duration, durationFalsy]
    norm_num
  exact (process_payment_insufficient "0xaaaa" 1 payEnvInsufficient
    sessionTwoHours userW (5 / 10000) (2 / 1000) rfl rfl rfl rfl rfl rfl hreq
    (by norm_num)).1

/-- C6: on a session already in status PAID and owned by the caller,
`process_payment` returns `ValidationError` ("already paid") after only the
two Ledger reads; no Ledger write is issued, so the stored payment amount
and payment time are untouched. -/
theorem process_payment_already_paid (w : String) (sid : Nat) (env : PayEnv)
    (s : Session) (u : User) (amount : ℚ)
    (hw : env.walletValid = true) (ha : env.parsedAmount = .ok amount)
    (hu : env.user = some u) (hs : env.session = some s)
    (hown : s.user_address = w) (hst : s.status = .paid) :
    PaymentUseCase.process_payment w sid env
        = (.error (.validationError .sessionAlreadyPaid), [.getUser, .getSession])
    ∧ LedgerOp.payWrite ∉ (PaymentUseCase.process_payment w sid env).2 := by
  have h : PaymentUseCase.process_payment w sid env
      = (.error (.validationError .sessionAlreadyPaid), [.getUser, .getSession]) := by
    simp [PaymentUseCase.process_payment, hw, ha, hu, hs, hown,
      Session.is_active, Session.is_paid, hst]
  refine ⟨h, ?_⟩
  rw [h]
  simp

/-- C6 witness: a second, well-formed payment attempt on the paid session
is rejected with "already paid" and performs no Ledger write. -/
theorem process_payment_already_paid_witness :
    PaymentUseCase.process_payment "0xaaaa" 4 payEnvPaid
        = (.error (.validationError .sessionAlreadyPaid),
          [.getUser, .getSession]) :=
  (process_payment_already_paid "0xaaaa" 4 payEnvPaid sessionPaid userW
    (2 / 1000) rfl rfl rfl rfl rfl rfl).1

lemma get_session_details_ops (w : String) (sid : Nat) (env : DetailsEnv) :
    (ChargeUseCase.get_session_details w sid env).2 = []
    ∨ (ChargeUseCase.get_session_details w sid env).2 = [.getUser]
    ∨ (ChargeUseCase.get_session_details w sid env).2 = [.getUser, .getSession] := by
  cases hw : env.walletValid with
  | false =>
    left
    simp [ChargeUseCase.get_session_details, hw]
  | true =>
    cases hu : env.user with
    | none =>
      right; left
      simp [ChargeUseCase.get_session_details, hw, hu]
    | some u =>
      cases hs : env.session with
      | none =>
        right; right
        simp [ChargeUseCase.get_session_details, hw, hu, hs]
      | some s =>
        right; right
        by_cases hown : s.user_address ≠ w
        · simp [ChargeUseCase.get_session_details, hw, hu, hs, hown]
        · by_cases hcond : (!s.is_active && !s.is_paid) = true
          · cases hcalc : ChargeUseCase.calculate_payment_amount s with
            | error e =>
              simp [ChargeUseCase.get_session_details, hw, hu, hs, hown, hcond,
                hcalc, Except.map]
            | ok v =>
              cases hst : s.start_time with
              | none =>
                simp [ChargeUseCase.get_session_details, hw, hu, hs, hown,
                  hcond, hcalc, hst, Except.map]
              | some a =>
                simp [ChargeUseCase.get_session_details, hw, hu, hs, hown,
                  hcond, hcalc, hst, Except.map]
          · have hcond' : (!s.is_active && !s.is_paid) = false :=
              Bool.eq_false_iff.mpr hcond
            cases hst : s.start_time with
            | none =>
              simp [ChargeUseCase.get_session_details, hw, hu, hs, hown,
                hcond', hst]
            | some a =>
              simp [ChargeUseCase.get_session_details, hw, hu, hs, hown,
                hcond', hst]

/-- C3 counterexample: `get_session_details` on the PAID session (which has
its end time set) reports status "ended", not "paid": line 213 of charge.py
tests `session.end_time` before `session.is_paid`. -/
theorem get_session_details_paid_reports_ended_cex :
    sessionPaid.is_paid = true
    ∧ (ChargeUseCase.get_session_details "0xaaaa" 4 detailsEnvPaid).1.map
        SessionDetailsView.status = .ok "ended"
    ∧ (ChargeUseCase.get_session_details "0xaaaa" 4 detailsEnvPaid).1.map
        SessionDetailsView.status ≠ .ok "paid" := by
  refine ⟨rfl, rfl, ?_⟩
  intro h
  have h2 : (ChargeUseCase.get_session_details "0xaaaa" 4 detailsEnvPaid).1.map
      SessionDetailsView.status = .ok "ended" := rfl
  rw [h2] at h
  simp at h

/-- C3 (amended): `get_session_details` reports "active" for an active
session and "ended" for a completed-but-unpaid session, but for a PAID
session with its end time set it also reports "ended" (the "paid" branch is
only reached when `end_time` is absent); and the call performs no Ledger
write. -/
theorem get_session_details_status (w : String) (sid : Nat) (env : DetailsEnv)
    (s : Session) (u : User) (a : Int)
    (hw : env.walletValid = true) (hu : env.user = some u)
    (hs : env.session = some s) (hown : s.user_address = w)
    (ha : s.start_time = some a) :
    (s.status = .active →
      (ChargeUseCase.get_session_details w sid env).1.map
        SessionDetailsView.status = .ok "active")
    ∧ (∀ r, s.status = .completed →
      ChargeUseCase.calculate_payment_amount s = .ok r →
      (ChargeUseCase.get_session_details w sid env).1.map
        SessionDetailsView.status = .ok "ended")
    ∧ (∀ b, s.status = .paid → s.end_time = some b →
      (ChargeUseCase.get_session_details w sid env).1.map
        SessionDetailsView.status = .ok "ended")
    ∧ (∀ op ∈ (ChargeUseCase.get_session_details w sid env).2,
      op.isWrite = false) := by
  refine ⟨?_, ?_, ?_, ?_⟩
  · intro hst
    simp [ChargeUseCase.get_session_details, hw, hu, hs, hown,
      Session.is_active, Session.is_paid, hst, ha, Except.map]
  · intro r hst hcalc
    cases he : s.end_time with
    | none =>
      rw [ChargeUseCase.calculate_payment_amount] at hcalc
      simp [Session.duration, ha, he, durationFalsy] at hcalc
    | some b =>
      simp [ChargeUseCase.get_session_details, hw, hu, hs, hown,
        Session.is_active, Session.is_paid, hst, ha, he, hcalc, Except.map]
  · intro b hst he
    simp [ChargeUseCase.get_session_details, hw, hu, hs, hown,
      Session.is_active, Session.is_paid, hst, ha, he, Except.map]
  · intro op hop
    rcases get_session_details_ops w sid env with h | h | h
    · rw [h] at hop
      simp at hop
    · rw [h] at hop
      simp at hop
      subst hop
      rfl
    · rw [h] at hop
      simp at hop
      rcases hop with rfl | rfl <;> rfl

/-- C3 witness: the status theorem applied to an active, a completed and a
paid session. -/
theorem get_session_details_status_witness :
    (ChargeUseCase.get_session_details "0xaaaa" 5 detailsEnvActive).1.map
        SessionDetailsView.status = .ok "active"
    ∧ (ChargeUseCase.get_session_details "0xaaaa" 1 detailsEnvCompleted).1.map
        SessionDetailsView.status = .ok "ended"
    ∧ (ChargeUseCase.get_session_details "0xaaaa" 4 detailsEnvPaid).1.map
        SessionDetailsView.status = .ok "ended" := by
  have hcalc : ChargeUseCase.calculate_payment_amount sessionTwoHours
      = .ok (2 / 1000) := by
    simp [ChargeUseCase.calculate_payment_amount, sessionTwoHours,
      Session.duration, durationFalsy, pyTrunc]
    norm_num
  refine ⟨?_, ?_, ?_⟩
  · exact (get_session_details_status "0xaaaa" 5 detailsEnvActive
      sessionActive userW 0 rfl rfl rfl rfl rfl).1 rfl
  · exact (get_session_details_status "0xaaaa" 1 detailsEnvCompleted
      sessionTwoHours userW 0 rfl rfl rfl rfl rfl).2.1 (2 / 1000) rfl hcalc
  · exact (get_session_details_status "0xaaaa" 4 detailsEnvPaid
      sessionPaid userW 0 rfl rfl rfl rfl rfl).2.2.1 7200 rfl rfl

lemma sessionsLoop_eq_filterMap (lookup : Nat → Option Session) (w : String)
    (ids : List Nat) :
    ChargeUseCase.sessionsLoop lookup w ids
      = ids.filterMap
          (fun i => (lookup i).bind
            (fun s => if s.user_address = w then some s else none)) := by
  induction ids with
  | nil => rfl
  | cons i rest ih =>
    cases hl : lookup i with
    | none => simp [ChargeUseCase.sessionsLoop, hl, ih]
    | some s =>
      by_cases hw : s.user_address = w
      · simp [ChargeUseCase.sessionsLoop, hl, hw, ih]
      · simp [ChargeUseCase.sessionsLoop, hl, hw, ih]

/-- C8: for an existing user, `get_user_sessions` returns (never raises
`SessionNotFoundError`) the listing obtained by iterating the user's
active-session ids when `active_only`, else ids `1..total_sessions`, where
every id whose Ledger lookup is "not found" is silently skipped. -/
theorem get_user_sessions_skips_missing (w : String) (active_only : Bool)
    (env : UserSessionsEnv) (u : User)
    (hw : env.walletValid = true) (hu : env.user = some u) :
    ChargeUseCase.get_user_sessions w active_only env
      = .ok ((if active_only then u.active_sessions
              else List.range' 1 u.total_sessions).filterMap
          (fun i => (env.lookup i).bind
            (fun s => if s.user_address = w then some s else none))) := by
  simp [ChargeUseCase.get_user_sessions, hw, hu, sessionsLoop_eq_filterMap]

/-- C8 witness: a user whose counter says three sessions while only id 1
resolves on the Ledger still gets a successful one-element listing. -/
theorem get_user_sessions_skips_missing_witness :
    ChargeUseCase.get_user_sessions "0xaaaa" false userSessionsEnvSparse
      = .ok [sessionTwoHours] := by
  rw [get_user_sessions_skips_missing "0xaaaa" false userSessionsEnvSparse
    { userW with wallet_address := "0xaaaa", total_sessions := 3 } rfl rfl]
  rfl

lemma buildResItems_error_of_noncancelled (w : String) (l : List Reservation)
    (hex : ∃ r ∈ l, r.is_cancelled = false) :
    ReserveUseCase.buildResItems none w l
      = .error (.nameError "current_time") := by
  induction l with
  | nil =>
    rcases hex with ⟨r, hr, _⟩
    simp at hr
  | cons r rest ih =>
    rcases hex with ⟨r', hr', hc'⟩
    rcases List.mem_cons.mp hr' with rfl | hmem
    · simp [ReserveUseCase.buildResItems, ReserveUseCase.resItemStatusVar, hc']
    · by_cases hc : r.is_cancelled = true
      · have htail := ih ⟨r', hmem, hc'⟩
        simp [ReserveUseCase.buildResItems, ReserveUseCase.resItemStatusVar,
          hc, htail, Except.map]
      · have hc0 : r.is_cancelled = false := Bool.eq_false_iff.mpr hc
        simp [ReserveUseCase.buildResItems, ReserveUseCase.resItemStatusVar, hc0]

lemma buildResItems_all_cancelled (w : String) (l : List Reservation)
    (h : ∀ r ∈ l, r.is_cancelled = true) :
    ReserveUseCase.buildResItems none w l
      = .ok (l.map (fun r => ReserveUseCase.resItem w r "cancelled")) := by
  induction l with
  | nil => rfl
  | cons r rest ih =>
    have hr : r.is_cancelled = true := h r (List.mem_cons_self r rest)
    have hrest := ih (fun x hx => h x (List.mem_cons_of_mem r hx))
    simp [ReserveUseCase.buildResItems, ReserveUseCase.resItemStatusVar, hr,
      hrest, Except.map]

/-- C9 counterexample: a user holding one reservation — a cancelled one —
gets a normal listing (status "cancelled") from the unfiltered call, not an
unbound-variable error: the status conditional at reserve.py line 307
short-circuits on `is_cancelled` before reading `current_time`. -/
theorem get_user_reservations_all_cancelled_ok_cex :
    userResEnvCancelled.reservations ≠ []
    ∧ (ReserveUseCase.get_user_reservations "0xw" none userResEnvCancelled).1
        = .ok [ReserveUseCase.resItem "0xw" resCancelled "cancelled"]
    ∧ (ReserveUseCase.get_user_reservations "0xw" none userResEnvCancelled).1
        ≠ .error (.nameError "current_time") := by
  have h : (ReserveUseCase.get_user_reservations "0xw" none userResEnvCancelled).1
      = .ok [ReserveUseCase.resItem "0xw" resCancelled "cancelled"] := rfl
  refine ⟨by decide, h, ?_⟩
  rw [h]
  exact fun hq => Except.noConfusion hq

/-- C9 (amended): with no status filter, `get_user_reservations` reads the
local `current_time` — assigned only inside the status-filter branch —
while building the status string of every non-cancelled reservation; so for
an existing user whose list holds at least one non-cancelled reservation
the call fails with the unbound-variable `NameError`, and the unfiltered
listing returns normally only when every reservation is cancelled (each
status short-circuiting to "cancelled"). -/
theorem get_user_reservations_unfiltered_nameerror (w : String)
    (env : UserResEnv) (u : User)
    (hw : env.walletValid = true) (hu : env.user = some u) :
    ((∃ r ∈ env.reservations, r.is_cancelled = false) →
      (ReserveUseCase.get_user_reservations w none env).1
        = .error (.nameError "current_time"))
    ∧ ((∀ r ∈ env.reservations, r.is_cancelled = true) →
      (ReserveUseCase.get_user_reservations w none env).1
        = .ok (env.reservations.map
            (fun r => ReserveUseCase.resItem w r "cancelled"))) := by
  constructor
  · intro hex
    simp [ReserveUseCase.get_user_reservations, hw, hu, pyStatusTruthy,
      buildResItems_error_of_noncancelled w env.reservations hex]
  · intro hall
    simp [ReserveUseCase.get_user_reservations, hw, hu, pyStatusTruthy,
      buildResItems_all_cancelled w env.reservations hall]

/-- C9 witness: the theorem applied to a user holding one non-cancelled
reservation (the call fails with the `NameError`) and to a user holding
only a cancelled one (the call returns the "cancelled" listing). -/
theorem get_user_reservations_unfiltered_nameerror_witness :
    (ReserveUseCase.get_user_reservations "0xw" none userResEnvOne).1
      = .error (.nameError "current_time")
    ∧ (ReserveUseCase.get_user_reservations "0xw" none userResEnvCancelled).1
      = .ok [ReserveUseCase.resItem "0xw" resCancelled "cancelled"] := by
  constructor
  · exact (get_user_reservations_unfiltered_nameerror "0xw" userResEnvOne
      userW rfl rfl).1 ⟨resStored, by decide, rfl⟩
  · exact ((get_user_reservations_unfiltered_nameerror "0xw"
      userResEnvCancelled userW rfl rfl).2 (by decide)).trans (by rfl)
